import Mathlib

/-!
Shallow embedding of `src/core/functions/internal_functions/locations/InternalModuleLocations.ts`.

The module wraps two external place APIs (Yelp GraphQL search and Google
Places).  Its core logic builds query strings / query parameters, normalizes
the API responses into domain records, and renders a star-rating display
string from numeric scores.

Modelling conventions:
  * JS numbers (ratings, coordinates) are modelled as `Rat`; `Math.ceil`
    becomes `Rat.ceil`.  `numStr` abstracts JS number-to-string conversion.
  * A JS value that may be `undefined`/`null` is an `Option`; JS string
    truthiness is `strTruthy`.
  * `new Array(n)` throws on a negative `n`, so `make_stars` is
    `Option`-valued, `none` modelling the thrown `RangeError`.
  * `throw new TemplaterError msg` is `Except.error (Err.templater msg)`.
  * Each effectful search function takes the prompt answers and the parsed
    network responses as explicit arguments, and returns its result paired
    with the list of network request URLs it issued, in order; an aborted
    run returns the requests issued up to the abort.
  * `URLSearchParams` serialization is abstracted by `renderParams`
    (percent-encoding is not modelled; the claims are about which
    parameters are carried).
-/

namespace Locations

/-- Category record of a Yelp business (`interface Category`). -/
structure Category where
  «alias» : String
  title : String
deriving DecidableEq

/-- Coordinates record (`interface Coordinates`). -/
structure Coordinates where
  longitude : Rat
  latitude : Rat
deriving DecidableEq

/-- Yelp location record (`interface Location`). -/
structure Location where
  address2 : String
  city : String
  country : String
  zip_code : String
  address1 : String
  address3 : String
  state : String
  display_address : List String
deriving DecidableEq

/-- Yelp business record (`interface YelpBusiness`). -/
structure YelpBusiness where
  review_count : Nat
  categories : List Category
  id : String
  is_closed : Bool
  phone : String
  rating : Rat
  image_url : String
  url : String
  display_phone : String
  price : String
  location : Location
  «alias» : String
  coordinates : Coordinates
  transactions : List String
  distance : Rat
  photos : List String
  name : String
deriving DecidableEq

/-- The `editorial_summary` sub-object of Google place details; its
`overview` property is optional. -/
structure EditorialSummary where
  overview : Option String
deriving DecidableEq

/-- Google place details record (`interface GooglePlaceDetails`).  The code
guards `editorial_summary` and `website` against absent values, and reads
the index-signature property `types`, so those are `Option`s. -/
structure GooglePlaceDetails where
  editorial_summary : Option EditorialSummary
  formatted_address : String
  name : String
  photos : List String
  rating : Rat
  url : String
  user_ratings_total : Nat
  website : Option String
  types : Option (List String)
deriving DecidableEq

/-- Merged domain record returned by the combined place search
(`interface Place`).  `banner` is `const [banner] = business.photos`, which
is `undefined` when the photo list is empty, hence an `Option`. -/
structure Place where
  name : String
  summary : String
  address : String
  location : Location
  website : String
  categories : String
  banner : Option String
  yelp_url : String
  yelp_review_count : Nat
  yelp_ratings : String
  google_url : String
  google_review_count : Nat
  google_ratings : String
deriving DecidableEq

/-- Record returned by the Google-only search (`interface GooglePlace`). -/
structure GooglePlace where
  name : String
  summary : String
  address : String
  website : String
  categories : String
  url : String
  review_count : Nat
  ratings : String
deriving DecidableEq

/-- `type YelpSearchInput = YelpCoordinateSearch | YelpCityBasedSearch`:
either a name with coordinates, or a name with a city.  The code
discriminates with `'city' in input`. -/
inductive YelpSearchInput where
  | coordinate (name : String) (longitude latitude : Rat)
  | cityBased (name : String) (city : String)
deriving DecidableEq

/-- The `name` field common to both shapes of `YelpSearchInput`. -/
def YelpSearchInput.name : YelpSearchInput → String
  | .coordinate n _ _ => n
  | .cityBased n _ => n

/-- Plugin settings the module reads (`this.plugin.settings`); each key may
be absent. -/
structure Settings where
  google_api_key : Option String
  yelp_api_key : Option String
  cors_proxy_url : String
deriving DecidableEq

/-- Errors thrown by the module: `TemplaterError msg`, or the `RangeError`
raised by `new Array` on a negative length. -/
inductive Err where
  | templater (msg : String)
  | rangeError
deriving DecidableEq

/-- JS truthiness of a string-or-undefined value (`!x` is true exactly for
`undefined`/`null` and the empty string). -/
def strTruthy : Option String → Bool
  | none => false
  | some s => !s.isEmpty

/-- Abstraction of JS number-to-string conversion used in template
literals. -/
def numStr (q : Rat) : String := toString q

/-- `const YELP_API_URL = ...`. -/
def YELP_API_URL : String := "https://api.yelp.com/v3/graphql"

/-- `const GOOGLE_PLACES_API_BASE_URL = ...`. -/
def GOOGLE_PLACES_API_BASE_URL : String := "https://maps.googleapis.com/maps/api/place"

/-- `const GOOGLE_PLACES_PLACE_URL = ...`. -/
def GOOGLE_PLACES_PLACE_URL : String := GOOGLE_PLACES_API_BASE_URL ++ "/findplacefromtext/json"

/-- `const GOOGLE_PLACES_PLACE_DETAILS_URL = ...`. -/
def GOOGLE_PLACES_PLACE_DETAILS_URL : String := GOOGLE_PLACES_API_BASE_URL ++ "/details/json"

/-- `const DEFAULT_GOOGLE_DETAILS = [...]`. -/
def DEFAULT_GOOGLE_DETAILS : List String :=
  ["name", "editorial_summary", "formatted_address", "photos", "rating", "url",
   "user_ratings_total", "website"]

/-- `make_stars = (num, star) => new Array(num).fill(star)`.  `new Array`
throws a `RangeError` on a negative length, modelled by `none`. -/
def make_stars (num : Int) (star : String) : Option (List String) :=
  if num < 0 then none else some (List.replicate num.toNat star)

/-- The star-rating rendering applied to a numeric score in
`generate_place_search` / `generate_google_places_search`:
`[...make_stars(ceil(r), '★'), ...make_stars(5 - ceil(r), '☆')].join('')`. -/
def ratings_of_rating (r : Rat) : Option String := do
  let filled ← make_stars r.ceil ("★")
  let empty ← make_stars (5 - r.ceil) ("☆")
  pure (String.join (filled ++ empty))

/-- `stripSpecials(str) = str.replace(/[^a-zA-Z0-9]/g, '')`.
`Char.isAlphanum` is exactly the ASCII class `[a-zA-Z0-9]`. -/
def stripSpecials (str : String) : String :=
  String.mk (str.toList.filter Char.isAlphanum)

/-- `create_yelp_search_block(input)`: the per-input GraphQL search block.
The alias is `search` + the stripped name; the parameters are chosen by
`'city' in input`. -/
def create_yelp_search_block (input : YelpSearchInput) : String :=
  let queryName := stripSpecials input.name
  let params :=
    match input with
    | .cityBased _ city => "location: \"" ++ city ++ "\""
    | .coordinate _ lon lat => "latitude: " ++ numStr lat ++ ", longitude: " ++ numStr lon
  "\n    search" ++ queryName ++ ": search(term: \"" ++ input.name ++ "\", limit: 1, "
    ++ params
    ++ ") \x7b\n        business \x7b\n            name\n            url\n            photos\n            rating\n            review_count\n            coordinates \x7b\n              longitude\n              latitude\n            \x7d\n            location \x7b\n                address1\n                address2\n                address3\n                city\n                state\n                country\n            \x7d\n            categories \x7b\n                alias\n            \x7d\n        \x7d\n    \x7d"

/-- `generate_yelp_query(search_inputs)`: one search block per input,
joined by newlines, inside `query { ... }`. -/
def generate_yelp_query (search_inputs : List YelpSearchInput) : String :=
  "query \x7b\n"
    ++ String.intercalate ("\n") (search_inputs.map (fun input => create_yelp_search_block input))
    ++ "\n\x7d"

/-- The fixed tail of a Yelp search block (everything after the search
parameters), used to state what `create_yelp_search_block` produces. -/
def yelpSearchBlockTail : String :=
  ") \x7b\n        business \x7b\n            name\n            url\n            photos\n            rating\n            review_count\n            coordinates \x7b\n              longitude\n              latitude\n            \x7d\n            location \x7b\n                address1\n                address2\n                address3\n                city\n                state\n                country\n            \x7d\n            categories \x7b\n                alias\n            \x7d\n        \x7d\n    \x7d"

/-- Spec-side shape of a Yelp search block: alias `search<queryAlias>`, a
search over `term` with `limit: 1`, the given parameter string, and the
fixed field-selection tail. -/
def yelpBlockOf (queryAlias term params : String) : String :=
  "\n    search" ++ queryAlias ++ ": search(term: \"" ++ term ++ "\", limit: 1, "
    ++ params ++ yelpSearchBlockTail

/-- Splitting a character list on a separator character, by structural
recursion: always returns at least one (possibly empty) piece. -/
def splitOnSep (sep : Char) : List Char → List (List Char)
  | [] => [[]]
  | c :: rest =>
    if c = sep then [] :: splitOnSep sep rest
    else
      match splitOnSep sep rest with
      | [] => [[c]]
      | h :: t => (c :: h) :: t

/-- JS `str.split(sep)` for a single-character separator. -/
def jsSplit (s : String) (sep : Char) : List String :=
  (splitOnSep sep s.toList).map String.mk

/-- `errors?.map(e => e.message).join('\n') ?? 'unknown'`, with the error
list already projected to messages. -/
def errMsg : Option (List String) → String
  | some es => String.intercalate ("\n") es
  | none => "unknown"

/-- Abstraction of `URLSearchParams` serialization: `k=v` pairs joined by
`&` (percent-encoding not modelled). -/
def renderParams (ps : List (String × String)) : String :=
  String.intercalate ("&") (ps.map (fun p => p.1 ++ "=" ++ p.2))

/-- The query parameters `search_google_place` inserts into its
`parameterMap`, in insertion order: `input`, `inputtype`, `key`, then
`locationbias` only under `if (latitude && longitude)` — JS truthiness, so
a `0` coordinate (or an absent one) adds no `locationbias`. -/
def google_place_params (name google_api_key : String)
    (latitude longitude : Option Rat) : List (String × String) :=
  let base := [("input", name), ("inputtype", "textquery"), ("key", google_api_key)]
  match latitude, longitude with
  | some lat, some lon =>
    if lat ≠ 0 ∧ lon ≠ 0 then
      base ++ [("locationbias", "point:" ++ numStr lat ++ "," ++ numStr lon)]
    else base
  | _, _ => base

/-- The query parameters `fetch_google_place_details` passes to
`URLSearchParams`, in property order: `fields` (the detail fields joined by
commas), `key`, `place_id`. -/
def google_details_params (google_api_key place_id : String)
    (details : List String) : List (String × String) :=
  [("fields", String.intercalate (",") details), ("key", google_api_key),
   ("place_id", place_id)]

/-- A candidate entry of the Google find-place response. -/
structure GoogleCandidate where
  place_id : String
deriving DecidableEq

/-- Parsed JSON body of the Google find-place response. -/
structure GoogleFindResponse where
  status : String
  candidates : List GoogleCandidate
  errors : Option (List String)
deriving DecidableEq

/-- Parsed JSON body of the Google place-details response. -/
structure GoogleDetailsResponse where
  status : String
  errors : Option (List String)
  result : Option GooglePlaceDetails
deriving DecidableEq

/-- Parsed Yelp GraphQL response: HTTP `ok` flag, the `data` object as an
ordered key/value list mapping each search alias to its business list, and
the optional `errors` messages. -/
structure YelpResponse where
  ok : Bool
  data : List (String × List YelpBusiness)
  errors : Option (List String)
deriving DecidableEq

/-- `search_google_place(name, latitude?, longitude?)`: builds the
find-place URL, issues the request, and extracts the first candidate's
`place_id`; throws when `status` is not `OK` or no candidate exists. -/
def search_google_place (st : Settings) (name : String)
    (latitude longitude : Option Rat) (resp : GoogleFindResponse) :
    Except Err String × List String :=
  let url := st.cors_proxy_url ++ "/" ++ GOOGLE_PLACES_PLACE_URL ++ "?"
    ++ renderParams (google_place_params name (st.google_api_key.getD "") latitude longitude)
  if resp.status ≠ "OK" then
    (Except.error (Err.templater (errMsg resp.errors)), [url])
  else
    match resp.candidates with
    | [] => (Except.error (Err.templater ("Found no Google place results")), [url])
    | candidate :: _ => (Except.ok candidate.place_id, [url])

/-- `fetch_google_place_details(place_id, details = DEFAULT_GOOGLE_DETAILS)`:
builds the details URL, issues the request, and returns `result`; throws
when `status` is not `OK` or `result` is absent. -/
def fetch_google_place_details (st : Settings) (place_id : String)
    (details : List String) (resp : GoogleDetailsResponse) :
    Except Err GooglePlaceDetails × List String :=
  let url := st.cors_proxy_url ++ "/" ++ GOOGLE_PLACES_PLACE_DETAILS_URL ++ "?"
    ++ renderParams (google_details_params (st.google_api_key.getD "") place_id details)
  if resp.status ≠ "OK" then
    (Except.error (Err.templater (errMsg resp.errors)), [url])
  else
    match resp.result with
    | none => (Except.error (Err.templater ("Found no Google place details")), [url])
    | some d => (Except.ok d, [url])

/-- `search_yelp(search_inputs)`: throws on a null/empty input list before
building the query or issuing the request; otherwise issues one POST to the
Yelp GraphQL endpoint, throws when the HTTP response is not ok, and
normalizes `data` with
`Object.values(data).reduce((acc, d) => [...acc, ...d.business], [])`. -/
def search_yelp (st : Settings) (search_inputs : List YelpSearchInput)
    (resp : YelpResponse) : Except Err (List YelpBusiness) × List String :=
  if search_inputs.isEmpty then
    (Except.error (Err.templater ("No search inputs provided")), [])
  else
    let url := st.cors_proxy_url ++ "/" ++ YELP_API_URL
    if resp.ok = false then
      (Except.error (Err.templater (errMsg resp.errors)), [url])
    else
      (Except.ok (resp.data.foldl (fun acc p => acc ++ p.2) []), [url])

/-- The function returned by `generate_yelp_search()`: checks the Yelp API
key, prompts for a business name and a city (`promptName`, `promptCity` are
the prompt answers; a cancelled or empty answer is falsy and aborts with
`null`), then runs `search_yelp` on the single city-based input. -/
def generate_yelp_search (st : Settings) (promptName promptCity : Option String)
    (yelpResp : YelpResponse) :
    Except Err (Option (List YelpBusiness)) × List String :=
  if strTruthy st.yelp_api_key = false then
    (Except.error (Err.templater ("Yelp API key was not found")), [])
  else if strTruthy promptName = false then
    (Except.ok none, [])
  else if strTruthy promptCity = false then
    (Except.ok none, [])
  else
    match search_yelp st
        [YelpSearchInput.cityBased (promptName.getD "") (promptCity.getD "")] yelpResp with
    | (Except.error e, reqs) => (Except.error e, reqs)
    | (Except.ok bs, reqs) => (Except.ok (some bs), reqs)

/-- `summary` as computed in the merge:
`editorial_summary ? editorial_summary.overview : ''` followed by
`summary || ''` in the record, which collapses an absent overview to the
empty string. -/
def summary_of (d : GooglePlaceDetails) : String :=
  match d.editorial_summary with
  | some es => es.overview.getD ""
  | none => ""

/-- The function returned by `generate_place_search()`: checks the Google
API key, runs the Yelp search, and on a non-empty result merges the first
Yelp business with the Google place details into a `Place`. -/
def generate_place_search (st : Settings) (promptName promptCity : Option String)
    (yelpResp : YelpResponse) (findResp : GoogleFindResponse)
    (detailsResp : GoogleDetailsResponse) : Except Err (Option Place) × List String :=
  if strTruthy st.google_api_key = false then
    (Except.error (Err.templater ("Google API key was not found")), [])
  else
    match generate_yelp_search st promptName promptCity yelpResp with
    | (Except.error e, reqs) => (Except.error e, reqs)
    | (Except.ok none, reqs) => (Except.ok none, reqs)
    | (Except.ok (some []), reqs) => (Except.ok none, reqs)
    | (Except.ok (some (business :: _)), reqs) =>
      let name := business.name
      let yelp_url := (jsSplit business.url '?').headD ""
      let yelp_review_count := business.review_count
      let categories :=
        String.intercalate ("\n  - ") (business.categories.map (fun c => c.«alias»))
      let banner := business.photos.head?
      let location := business.location
      match ratings_of_rating business.rating with
      | none => (Except.error Err.rangeError, reqs)
      | some yelp_ratings =>
        match search_google_place st name (some business.coordinates.latitude)
            (some business.coordinates.longitude) findResp with
        | (Except.error e, reqs2) => (Except.error e, reqs ++ reqs2)
        | (Except.ok google_place_id, reqs2) =>
          match fetch_google_place_details st google_place_id DEFAULT_GOOGLE_DETAILS
              detailsResp with
          | (Except.error e, reqs3) => (Except.error e, reqs ++ reqs2 ++ reqs3)
          | (Except.ok d, reqs3) =>
            match ratings_of_rating d.rating with
            | none => (Except.error Err.rangeError, reqs ++ reqs2 ++ reqs3)
            | some google_ratings =>
              (Except.ok (some
                { name := name
                  summary := summary_of d
                  address := d.formatted_address
                  website := d.website.getD ""
                  location := location
                  categories := categories
                  banner := banner
                  yelp_url := yelp_url
                  yelp_review_count := yelp_review_count
                  yelp_ratings := yelp_ratings
                  google_url := d.url
                  google_review_count := d.user_ratings_total
                  google_ratings := google_ratings }),
                reqs ++ reqs2 ++ reqs3)

/-- The function returned by `generate_google_places_search()`: checks the
Google API key, prompts for a name and a city, then runs the find-place and
place-details requests and builds a `GooglePlace`. -/
def generate_google_places_search (st : Settings)
    (promptName promptCity : Option String) (findResp : GoogleFindResponse)
    (detailsResp : GoogleDetailsResponse) : Except Err (Option GooglePlace) × List String :=
  if strTruthy st.google_api_key = false then
    (Except.error (Err.templater ("Google API key was not found")), [])
  else if strTruthy promptName = false then
    (Except.ok none, [])
  else if strTruthy promptCity = false then
    (Except.ok none, [])
  else
    let text := promptName.getD "" ++ " " ++ promptCity.getD ""
    let details := DEFAULT_GOOGLE_DETAILS ++ ["address_components", "types"]
    match search_google_place st text none none findResp with
    | (Except.error e, reqs) => (Except.error e, reqs)
    | (Except.ok pid, reqs) =>
      match fetch_google_place_details st pid details detailsResp with
      | (Except.error e, reqs2) => (Except.error e, reqs ++ reqs2)
      | (Except.ok d, reqs2) =>
        match ratings_of_rating d.rating with
        | none => (Except.error Err.rangeError, reqs ++ reqs2)
        | some ratings =>
          (Except.ok (some
            { name := promptName.getD ""
              summary := summary_of d
              address := d.formatted_address
              website := d.website.getD ""
              categories :=
                match d.types with
                | some ts => String.intercalate ("\n  - ") ts
                | none => ""
              url := d.url
              review_count := d.user_ratings_total
              ratings := ratings }),
            reqs ++ reqs2)

/-- The mutable state a method call could touch: the module's plugin
settings. -/
structure ModuleState where
  settings : Settings
deriving DecidableEq

/-- `this.make_stars(num, star)` as a state-passing method call: its body
reads and writes no module or plugin state. -/
def make_stars_call (st : ModuleState) (num : Int) (star : String) :
    Option (List String) × ModuleState :=
  (make_stars num star, st)

/-- `this.stripSpecials(str)` as a state-passing method call. -/
def stripSpecials_call (st : ModuleState) (str : String) : String × ModuleState :=
  (stripSpecials str, st)

/-- `this.create_yelp_search_block(input)` as a state-passing method call. -/
def create_yelp_search_block_call (st : ModuleState) (input : YelpSearchInput) :
    String × ModuleState :=
  (create_yelp_search_block input, st)

/-- `this.generate_yelp_query(search_inputs)` as a state-passing method
call. -/
def generate_yelp_query_call (st : ModuleState) (search_inputs : List YelpSearchInput) :
    String × ModuleState :=
  (generate_yelp_query search_inputs, st)

/-- Sample Yelp location used to evaluate the model on concrete inputs. -/
def sampleLocation : Location :=
  { address2 := ""
    city := "Oakland"
    country := "US"
    zip_code := "94607"
    address1 := "300 Webster St"
    address3 := ""
    state := "CA"
    display_address := ["300 Webster St", "Oakland, CA 94607"] }

/-- Sample Yelp business used to evaluate the model on concrete inputs. -/
def sampleBusiness : YelpBusiness :=
  { review_count := 120
    categories := [{ «alias» := "coffee", title := "Coffee & Tea" }]
    id := "bb-oak"
    is_closed := false
    phone := "+15105550100"
    rating := 4
    image_url := "https://img.example/1.jpg"
    url := "https://www.yelp.com/biz/bb?adjust_creative=x"
    display_phone := "(510) 555-0100"
    price := "$$"
    location := sampleLocation
    «alias» := "blue-bottle-oakland"
    coordinates := { longitude := Rat.divInt (-12227) 100, latitude := Rat.divInt 3780 100 }
    transactions := []
    distance := 1
    photos := ["https://photo.example/1.jpg", "https://photo.example/2.jpg"]
    name := "Blue Bottle Coffee" }

/-- Sample plugin settings with both API keys configured. -/
def sampleSettings : Settings :=
  { google_api_key := some "g-key"
    yelp_api_key := some "y-key"
    cors_proxy_url := "https://proxy.example" }

/-- Sample successful Yelp GraphQL response with a single search alias. -/
def sampleYelpResponse : YelpResponse :=
  { ok := true
    data := [("searchBlueBottleCoffee", [sampleBusiness])]
    errors := none }

/-- Sample Google place details used to evaluate the model. -/
def sampleDetails : GooglePlaceDetails :=
  { editorial_summary := some { overview := some "Iconic coffee bar" }
    formatted_address := "300 Webster St, Oakland, CA 94607, USA"
    name := "Blue Bottle Coffee"
    photos := []
    rating := Rat.divInt 9 2
    url := "https://maps.google.com/?cid=1"
    user_ratings_total := 800
    website := some "https://bluebottlecoffee.com"
    types := some ["cafe", "food"] }

/-- Sample successful Google find-place response. -/
def sampleFindResponse : GoogleFindResponse :=
  { status := "OK", candidates := [{ place_id := "place-123" }], errors := none }

/-- Sample successful Google place-details response. -/
def sampleDetailsResponse : GoogleDetailsResponse :=
  { status := "OK", errors := none, result := some sampleDetails }

/-- The merged `Place` expected for the sample inputs. -/
def samplePlace : Place :=
  { name := "Blue Bottle Coffee"
    summary := "Iconic coffee bar"
    address := "300 Webster St, Oakland, CA 94607, USA"
    location := sampleLocation
    website := "https://bluebottlecoffee.com"
    categories := "coffee"
    banner := some "https://photo.example/1.jpg"
    yelp_url := "https://www.yelp.com/biz/bb"
    yelp_review_count := 120
    yelp_ratings := "★★★★☆"
    google_url := "https://maps.google.com/?cid=1"
    google_review_count := 800
    google_ratings := "★★★★★" }

/-- Length of a joined string list is the sum of the lengths. -/
theorem string_join_length (l : List String) :
    (String.join l).length = (l.map String.length).sum := by
  unfold String.join
  suffices h : ∀ acc : String,
      (l.foldl (fun r s => r ++ s) acc).length = acc.length + (l.map String.length).sum by
    simpa using h ""
  induction l with
  | nil => intro acc; simp
  | cons hd tl ih =>
    intro acc
    simp [List.foldl_cons, ih, String.length_append]
    omega

/-- Folding list append from the empty list concatenates the mapped
sublists. -/
theorem foldl_append_eq_flatten {α β : Type} (l : List (α × List β)) (acc : List β) :
    l.foldl (fun acc p => acc ++ p.2) acc = acc ++ (l.map (fun p => p.2)).flatten := by
  induction l generalizing acc with
  | nil => simp
  | cons hd tl ih => simp [List.foldl_cons, ih, List.append_assoc]

/-- C1: for a score whose ceiling is in [0, 5], the star-rating display
string is `ceil r` filled stars followed by `5 - ceil r` empty stars, and
has exactly 5 characters. -/
theorem star_rating_display (r : Rat) (h0 : 0 ≤ r.ceil) (h5 : r.ceil ≤ 5) :
    ratings_of_rating r =
      some (String.join (List.replicate r.ceil.toNat ("★")
        ++ List.replicate (5 - r.ceil).toNat ("☆")))
    ∧ ∀ s, ratings_of_rating r = some s → s.length = 5 := by
  have hn : ¬ (r.ceil < 0) := by omega
  have hm : ¬ (5 - r.ceil < 0) := by omega
  have heq : ratings_of_rating r =
      some (String.join (List.replicate r.ceil.toNat ("★")
        ++ List.replicate (5 - r.ceil).toNat ("☆"))) := by
    simp [ratings_of_rating, make_stars, hn, hm]
  refine ⟨heq, fun s hs => ?_⟩
  rw [heq, Option.some_inj] at hs
  subst hs
  rw [string_join_length]
  simp [List.map_replicate, List.sum_replicate, smul_eq_mul,
    (by decide : ("★" : String).length = 1), (by decide : ("☆" : String).length = 1)]
  omega

/-- C1 witness: score 7/2 has ceiling 4 and renders as four filled and one
empty star. -/
theorem star_rating_display_witness :
    0 ≤ (Rat.divInt 7 2).ceil ∧ (Rat.divInt 7 2).ceil ≤ 5
    ∧ ratings_of_rating (Rat.divInt 7 2) = some ("★★★★☆")
    ∧ (ratings_of_rating (Rat.divInt 7 2)).elim 0 String.length = 5 := by
  obtain ⟨h1, h2⟩ := star_rating_display (Rat.divInt 7 2) (by decide) (by decide)
  refine ⟨by decide, by decide, ?_, ?_⟩
  · rw [h1]; decide
  · rw [h1]; decide

/-- C8: when the ceiling of the score is above 5 (or below 0), the
corresponding `new Array` length is negative, `make_stars` throws, and no
ratings string is produced. -/
theorem star_rating_out_of_range (r : Rat) (h : 5 < r.ceil ∨ r.ceil < 0) :
    (5 < r.ceil → make_stars (5 - r.ceil) ("☆") = none)
    ∧ (r.ceil < 0 → make_stars r.ceil ("★") = none)
    ∧ ratings_of_rating r = none := by
  refine ⟨fun h5 => ?_, fun hneg => ?_, ?_⟩
  · simp [make_stars]; omega
  · simp [make_stars]; omega
  · rcases h with h5 | hneg
    · have hn : ¬ (r.ceil < 0) := by omega
      have hm : 5 - r.ceil < 0 := by omega
      simp [ratings_of_rating, make_stars, hn, hm]
    · simp [ratings_of_rating, make_stars, hneg]

/-- C8 witness: a score of 6 has ceiling 6, the empty-star count is
negative, and no ratings string is produced. -/
theorem star_rating_out_of_range_witness :
    (5 < Rat.ceil 6 ∨ Rat.ceil 6 < 0)
    ∧ make_stars (5 - Rat.ceil 6) ("☆") = none
    ∧ ratings_of_rating 6 = none := by
  have h := star_rating_out_of_range 6 (Or.inl (by decide))
  exact ⟨Or.inl (by decide), h.1 (by decide), h.2.2⟩

/-- C3: for a non-empty input list, the generated Yelp GraphQL query is
`query {` plus the per-input search blocks joined by newlines, in order,
plus `}`; each block's alias is `search` plus the stripped input name, and
it searches with the raw name as `term` and `limit: 1`. -/
theorem generate_yelp_query_spec (inputs : List YelpSearchInput) (h : inputs ≠ []) :
    generate_yelp_query inputs =
        "query \x7b\n"
          ++ String.intercalate ("\n")
              (inputs.map (fun input => create_yelp_search_block input))
          ++ "\n\x7d"
    ∧ ("query \x7b").toList <+: (generate_yelp_query inputs).toList
    ∧ ("\x7d").toList <:+ (generate_yelp_query inputs).toList
    ∧ ∀ i ∈ inputs, ∃ rest, create_yelp_search_block i =
        "\n    search" ++ stripSpecials (YelpSearchInput.name i)
          ++ ": search(term: \"" ++ YelpSearchInput.name i ++ "\", limit: 1, " ++ rest := by
  refine ⟨rfl, ?_, ?_, ?_⟩
  · show ("query \x7b").toList <+: (generate_yelp_query inputs).data
    have h1 : (generate_yelp_query inputs).data =
        ("query \x7b\n").data
          ++ ((String.intercalate ("\n")
                (inputs.map (fun input => create_yelp_search_block input))) ++ "\n\x7d").data := by
      simp [generate_yelp_query, String.data_append, List.append_assoc]
    rw [h1]
    exact List.IsPrefix.trans (by decide) (List.prefix_append _ _)
  · show ("\x7d").toList <:+ (generate_yelp_query inputs).data
    have h1 : (generate_yelp_query inputs).data =
        (("query \x7b\n"
          ++ String.intercalate ("\n")
              (inputs.map (fun input => create_yelp_search_block input))).data
          ++ ("\n\x7d").data) := by
      simp [generate_yelp_query, String.data_append]
    rw [h1]
    exact List.IsSuffix.trans (by decide) (List.suffix_append _ _)
  · intro i _
    cases i with
    | cityBased name city =>
      refine ⟨("location: \"" ++ city ++ "\"") ++ yelpSearchBlockTail, ?_⟩
      show yelpBlockOf (stripSpecials name) name ("location: \"" ++ city ++ "\"") = _
      simp only [yelpBlockOf, YelpSearchInput.name, String.append_assoc]
    | coordinate name lon lat =>
      refine ⟨("latitude: " ++ numStr lat ++ ", longitude: " ++ numStr lon)
        ++ yelpSearchBlockTail, ?_⟩
      show yelpBlockOf (stripSpecials name) name
        ("latitude: " ++ numStr lat ++ ", longitude: " ++ numStr lon) = _
      simp only [yelpBlockOf, YelpSearchInput.name, String.append_assoc]

/-- C3 witness: a singleton input list, with the query prefix checked on
the concrete result. -/
theorem generate_yelp_query_spec_witness :
    ([YelpSearchInput.cityBased ("Blue Bottle") ("Oakland")]
        ≠ ([] : List YelpSearchInput))
    ∧ ("query \x7b").toList
        <+: (generate_yelp_query
              [YelpSearchInput.cityBased ("Blue Bottle") ("Oakland")]).toList := by
  have h := generate_yelp_query_spec
    [YelpSearchInput.cityBased ("Blue Bottle") ("Oakland")] (by decide)
  exact ⟨by decide, h.2.1⟩

/-- C4: the search block's parameters are selected by input shape — a
city-based input yields exactly the `location` parameter, a coordinate
input yields exactly the `latitude`/`longitude` parameters, and the chosen
parameter string occurs in the block. -/
theorem create_yelp_search_block_selects :
    (∀ name city,
        create_yelp_search_block (YelpSearchInput.cityBased name city)
          = yelpBlockOf (stripSpecials name) name ("location: \"" ++ city ++ "\"")
        ∧ ("location: \"" ++ city ++ "\"").toList
            <:+: (create_yelp_search_block (YelpSearchInput.cityBased name city)).toList)
    ∧ (∀ name lon lat,
        create_yelp_search_block (YelpSearchInput.coordinate name lon lat)
          = yelpBlockOf (stripSpecials name) name
              ("latitude: " ++ numStr lat ++ ", longitude: " ++ numStr lon)
        ∧ ("latitude: " ++ numStr lat ++ ", longitude: " ++ numStr lon).toList
            <:+: (create_yelp_search_block (YelpSearchInput.coordinate name lon lat)).toList) := by
  constructor
  · intro name city
    refine ⟨rfl, ?_⟩
    refine ⟨("\n    search" ++ stripSpecials name ++ ": search(term: \"" ++ name
      ++ "\", limit: 1, ").toList, yelpSearchBlockTail.toList, ?_⟩
    show _ ++ _ ++ _ = (yelpBlockOf (stripSpecials name) name
      ("location: \"" ++ city ++ "\"")).toList
    simp only [yelpBlockOf, String.toList, String.data_append, List.append_assoc]
  · intro name lon lat
    refine ⟨rfl, ?_⟩
    refine ⟨("\n    search" ++ stripSpecials name ++ ": search(term: \"" ++ name
      ++ "\", limit: 1, ").toList, yelpSearchBlockTail.toList, ?_⟩
    show _ ++ _ ++ _ = (yelpBlockOf (stripSpecials name) name
      ("latitude: " ++ numStr lat ++ ", longitude: " ++ numStr lon)).toList
    simp only [yelpBlockOf, String.toList, String.data_append, List.append_assoc]

/-- C7: the query-construction and display-value methods are deterministic
functions of their arguments alone — the module state is returned
unchanged, and the result does not depend on it. -/
theorem core_functions_stateless (st st' : ModuleState) (num : Int) (star str : String)
    (input : YelpSearchInput) (inputs : List YelpSearchInput) :
    ((make_stars_call st num star).2 = st
      ∧ (make_stars_call st num star).1 = (make_stars_call st' num star).1)
    ∧ ((stripSpecials_call st str).2 = st
      ∧ (stripSpecials_call st str).1 = (stripSpecials_call st' str).1)
    ∧ ((create_yelp_search_block_call st input).2 = st
      ∧ (create_yelp_search_block_call st input).1
          = (create_yelp_search_block_call st' input).1)
    ∧ ((generate_yelp_query_call st inputs).2 = st
      ∧ (generate_yelp_query_call st inputs).1
          = (generate_yelp_query_call st' inputs).1) :=
  ⟨⟨rfl, rfl⟩, ⟨rfl, rfl⟩, ⟨rfl, rfl⟩, ⟨rfl, rfl⟩⟩

/-- C10: the find-place request carries `locationbias` exactly when both
coordinates are provided and non-zero; a `0` coordinate (equator or prime
meridian) or an absent one yields no `locationbias` parameter. -/
theorem locationbias_iff (name key : String) (latitude longitude : Option Rat) :
    (∃ v, ("locationbias", v) ∈ google_place_params name key latitude longitude)
      ↔ ∃ a b, latitude = some a ∧ longitude = some b ∧ a ≠ 0 ∧ b ≠ 0 := by
  cases latitude with
  | none => simp [google_place_params]
  | some a =>
    cases longitude with
    | none => simp [google_place_params]
    | some b =>
      by_cases hab : a ≠ 0 ∧ b ≠ 0
      · simp [google_place_params, hab]
      · simp [google_place_params, hab]

/-- C5 counterexample: with a supplied zero latitude the find-place
parameters carry no `locationbias`, only `input`, `inputtype` and `key`. -/
theorem google_place_params_zero_lat :
    google_place_params ("Blue Bottle") ("g-key") (some 0) (some 1)
      = [("input", "Blue Bottle"), ("inputtype", "textquery"), ("key", "g-key")] := by
  decide

/-- C5 (amended): the find-place request carries exactly `input`,
`inputtype` and `key`, plus `locationbias=point:<lat>,<lon>` when both
coordinates are supplied and truthy (non-zero); the details request
carries exactly `fields` (the detail fields joined by commas), `key` and
`place_id`, with the default detail fields as listed. -/
theorem google_request_params (name key place_id : String)
    (latitude longitude : Option Rat) (details : List String) :
    google_place_params name key latitude longitude
      = [("input", name), ("inputtype", "textquery"), ("key", key)]
        ++ (match latitude, longitude with
            | some a, some b =>
              if a ≠ 0 ∧ b ≠ 0 then
                [("locationbias", "point:" ++ numStr a ++ "," ++ numStr b)]
              else []
            | _, _ => [])
    ∧ google_details_params key place_id details
      = [("fields", String.intercalate (",") details), ("key", key),
         ("place_id", place_id)]
    ∧ DEFAULT_GOOGLE_DETAILS
      = ["name", "editorial_summary", "formatted_address", "photos", "rating", "url",
         "user_ratings_total", "website"] := by
  refine ⟨?_, rfl, rfl⟩
  cases latitude with
  | none => simp [google_place_params]
  | some a =>
    cases longitude with
    | none => simp [google_place_params]
    | some b =>
      by_cases hab : a ≠ 0 ∧ b ≠ 0 <;> simp [google_place_params, hab]

/-- C6: on a successful response, `search_yelp` returns the concatenation
of the per-alias business lists, in the order of the data object's keys. -/
theorem search_yelp_normalizes (st : Settings) (inputs : List YelpSearchInput)
    (resp : YelpResponse) (hne : inputs ≠ []) (hok : resp.ok = true) :
    (search_yelp st inputs resp).1
      = Except.ok ((resp.data.map (fun p => p.2)).flatten) := by
  have hne' : inputs.isEmpty = false := by
    cases inputs with
    | nil => exact absurd rfl hne
    | cons hd tl => rfl
  simp [search_yelp, hne', hok, foldl_append_eq_flatten]

/-- C6 witness: a response with one alias holding one business normalizes
to that single business. -/
theorem search_yelp_normalizes_witness :
    (search_yelp sampleSettings [YelpSearchInput.cityBased ("Blue Bottle") ("Oakland")]
        sampleYelpResponse).1
      = Except.ok [sampleBusiness] := by
  have h := search_yelp_normalizes sampleSettings
    [YelpSearchInput.cityBased ("Blue Bottle") ("Oakland")] sampleYelpResponse
    (by decide) rfl
  exact h.trans rfl

/-- C9: each search function fails or aborts before any network request —
a missing API key throws a `TemplaterError`, an empty input list throws,
and a missing business name or city returns `null`; in each case the list
of issued requests is empty. -/
theorem searches_abort_before_network (st : Settings) (pn pc : Option String)
    (yr : YelpResponse) (fr : GoogleFindResponse) (dr : GoogleDetailsResponse) :
    (strTruthy st.google_api_key = false →
      generate_place_search st pn pc yr fr dr
          = (Except.error (Err.templater ("Google API key was not found")), [])
        ∧ generate_google_places_search st pn pc fr dr
          = (Except.error (Err.templater ("Google API key was not found")), []))
    ∧ (strTruthy st.yelp_api_key = false →
        generate_yelp_search st pn pc yr
          = (Except.error (Err.templater ("Yelp API key was not found")), []))
    ∧ search_yelp st [] yr
        = (Except.error (Err.templater ("No search inputs provided")), [])
    ∧ (strTruthy pn = false →
        (strTruthy st.yelp_api_key = true →
          generate_yelp_search st pn pc yr = (Except.ok none, []))
        ∧ (strTruthy st.google_api_key = true → strTruthy st.yelp_api_key = true →
          generate_place_search st pn pc yr fr dr = (Except.ok none, []))
        ∧ (strTruthy st.google_api_key = true →
          generate_google_places_search st pn pc fr dr = (Except.ok none, [])))
    ∧ (strTruthy pn = true → strTruthy pc = false →
        (strTruthy st.yelp_api_key = true →
          generate_yelp_search st pn pc yr = (Except.ok none, []))
        ∧ (strTruthy st.google_api_key = true → strTruthy st.yelp_api_key = true →
          generate_place_search st pn pc yr fr dr = (Except.ok none, []))
        ∧ (strTruthy st.google_api_key = true →
          generate_google_places_search st pn pc fr dr = (Except.ok none, []))) := by
  refine ⟨fun hg => ⟨?_, ?_⟩, fun hy => ?_, ?_, fun hpn => ⟨fun hy => ?_, fun hg hy => ?_, fun hg => ?_⟩,
    fun hpn hpc => ⟨fun hy => ?_, fun hg hy => ?_, fun hg => ?_⟩⟩
  · simp [generate_place_search, hg]
  · simp [generate_google_places_search, hg]
  · simp [generate_yelp_search, hy]
  · simp [search_yelp]
  · simp [generate_yelp_search, hy, hpn]
  · simp [generate_place_search, generate_yelp_search, hg, hy, hpn]
  · simp [generate_google_places_search, hg, hpn]
  · simp [generate_yelp_search, hy, hpn, hpc]
  · simp [generate_place_search, generate_yelp_search, hg, hy, hpn, hpc]
  · simp [generate_google_places_search, hg, hpn, hpc]

/-- C9 witness: concrete aborts — a missing Google key throws before any
request, an empty `search_yelp` input throws before any request, and a
cancelled business-name prompt returns `null` with no request. -/
theorem searches_abort_before_network_witness :
    generate_place_search
        { google_api_key := none, yelp_api_key := some "y-key",
          cors_proxy_url := "https://proxy.example" }
        (some ("Blue Bottle")) (some ("Oakland")) sampleYelpResponse
        sampleFindResponse sampleDetailsResponse
      = (Except.error (Err.templater ("Google API key was not found")), [])
    ∧ search_yelp sampleSettings [] sampleYelpResponse
      = (Except.error (Err.templater ("No search inputs provided")), [])
    ∧ generate_place_search sampleSettings none (some ("Oakland")) sampleYelpResponse
        sampleFindResponse sampleDetailsResponse
      = (Except.ok none, []) := by
  have h1 := searches_abort_before_network
    { google_api_key := none, yelp_api_key := some "y-key",
      cors_proxy_url := "https://proxy.example" }
    (some ("Blue Bottle")) (some ("Oakland")) sampleYelpResponse
    sampleFindResponse sampleDetailsResponse
  have h2 := searches_abort_before_network sampleSettings none (some ("Oakland"))
    sampleYelpResponse sampleFindResponse sampleDetailsResponse
  exact ⟨(h1.1 rfl).1, h2.2.2.1, (h2.2.2.2.1 rfl).2.1 rfl rfl⟩

/-- C2: a successful combined search merges the first Yelp business and the
Google place details into a single `Place`: name, location, categories
(aliases joined by `\n  - `), banner (first photo), the Yelp URL truncated
before `?`, the Yelp review count and star rating from Yelp; summary,
address, website, URL, review count and star rating from Google, with
summary and website defaulting to the empty string when absent. -/
theorem place_search_merges (st : Settings) (pn pc : Option String)
    (yr : YelpResponse) (fr : GoogleFindResponse) (dr : GoogleDetailsResponse)
    (b : YelpBusiness) (rest : List YelpBusiness) (c : GoogleCandidate)
    (cs : List GoogleCandidate) (d : GooglePlaceDetails) (ys gs : String)
    (hg : strTruthy st.google_api_key = true) (hy : strTruthy st.yelp_api_key = true)
    (hpn : strTruthy pn = true) (hpc : strTruthy pc = true)
    (hok : yr.ok = true)
    (hdata : (yr.data.map (fun p => p.2)).flatten = b :: rest)
    (hys : ratings_of_rating b.rating = some ys)
    (hfs : fr.status = "OK") (hcand : fr.candidates = c :: cs)
    (hds : dr.status = "OK") (hres : dr.result = some d)
    (hgs : ratings_of_rating d.rating = some gs) :
    (generate_place_search st pn pc yr fr dr).1
      = Except.ok (some
          { name := b.name
            summary := summary_of d
            address := d.formatted_address
            website := d.website.getD ""
            location := b.location
            categories := String.intercalate ("\n  - ")
              (b.categories.map (fun cat => cat.«alias»))
            banner := b.photos.head?
            yelp_url := (jsSplit b.url '?').headD ""
            yelp_review_count := b.review_count
            yelp_ratings := ys
            google_url := d.url
            google_review_count := d.user_ratings_total
            google_ratings := gs })
    ∧ (d.editorial_summary = none → summary_of d = "")
    ∧ (d.website = none → d.website.getD "" = "") := by
  have hsy : search_yelp st
      [YelpSearchInput.cityBased (pn.getD "") (pc.getD "")] yr
      = (Except.ok (b :: rest), [st.cors_proxy_url ++ "/" ++ YELP_API_URL]) := by
    simp [search_yelp, hok, foldl_append_eq_flatten, hdata]
  have hgen : generate_yelp_search st pn pc yr
      = (Except.ok (some (b :: rest)), [st.cors_proxy_url ++ "/" ++ YELP_API_URL]) := by
    simp [generate_yelp_search, hy, hpn, hpc, hsy]
  have hsg : search_google_place st b.name (some b.coordinates.latitude)
      (some b.coordinates.longitude) fr
      = (Except.ok c.place_id,
         [st.cors_proxy_url ++ "/" ++ GOOGLE_PLACES_PLACE_URL ++ "?"
           ++ renderParams (google_place_params b.name (st.google_api_key.getD "")
                (some b.coordinates.latitude) (some b.coordinates.longitude))]) := by
    simp [search_google_place, hfs, hcand]
  have hfd : fetch_google_place_details st c.place_id DEFAULT_GOOGLE_DETAILS dr
      = (Except.ok d,
         [st.cors_proxy_url ++ "/" ++ GOOGLE_PLACES_PLACE_DETAILS_URL ++ "?"
           ++ renderParams (google_details_params (st.google_api_key.getD "")
                c.place_id DEFAULT_GOOGLE_DETAILS)]) := by
    simp [fetch_google_place_details, hds, hres]
  refine ⟨?_, fun hnone => by simp [summary_of, hnone], fun hnone => by simp [hnone]⟩
  simp [generate_place_search, hg, hgen, hys, hsg, hfd, hgs]

/-- C2 witness: the sample Yelp business and Google details merge into the
expected `Place`. -/
theorem place_search_merges_witness :
    (generate_place_search sampleSettings (some ("Blue Bottle")) (some ("Oakland"))
        sampleYelpResponse sampleFindResponse sampleDetailsResponse).1
      = Except.ok (some samplePlace) := by
  have h := place_search_merges sampleSettings (some ("Blue Bottle")) (some ("Oakland"))
    sampleYelpResponse sampleFindResponse sampleDetailsResponse sampleBusiness []
    { place_id := "place-123" } [] sampleDetails ("★★★★☆") ("★★★★★")
    rfl rfl rfl rfl rfl rfl (by decide) rfl rfl rfl rfl (by decide)
  exact h.1.trans rfl

end Locations
